import Mathlib

/-!
# Verification of the lifers-raylib frontend core

Shallow embedding of the repository's core logic:

* `src/timer.rs` — the repeating, pausable timer state machine
  (`RepeatingTimer`, `TimerState`).
* `src/frontend.rs` / `src/life_like.rs` — the coordinate-mapping geometry
  computed in `RaylibFrontend::new` (identical in both variants), the
  `window_should_close` predicates, and the timer effect of
  `default_key_actions`.

Modelling conventions:

* Rust `Duration` is a non-negative span; we model it as `Nat` (abstract
  ticks).  `Duration::checked_sub` becomes `Duration.checkedSub`.  The
  literal `10` in the key actions stands for `Duration::from_millis(10)`.
* Rust `Instant` is modelled as a `Nat` tick.  `Instant::duration_since`
  saturates at zero when the other instant is later, which is exactly
  `Nat` truncated subtraction.
* The `f32` geometry arithmetic of `RaylibFrontend::new` is modelled over
  `ℚ`.  All concrete inputs evaluated in theorems below are exact in
  `f32` (small integers, divisions with exact results), so the rational
  model agrees with the machine arithmetic there; for symbolic theorems
  the model idealizes `f32` rounding.
-/

set_option autoImplicit false

/-- Rust `Duration::checked_sub`: `some (a - b)` when it does not underflow,
`none` otherwise.  Durations are modelled as `Nat` ticks throughout. -/
def Duration.checkedSub (a b : Nat) : Option Nat :=
  if b ≤ a then some (a - b) else none

/-- `TimerState` from `src/timer.rs`. -/
inductive TimerState
  | Ongoing
  | Finished
  | Paused
deriving DecidableEq

/-- `RepeatingTimer` from `src/timer.rs`.  `amount` is the period;
`last_checked` is the `Instant` of the last `update` call, modelled as a
`Nat` tick. -/
structure RepeatingTimer where
  amount : Nat
  time_left : Nat
  last_checked : Nat
  paused : Bool
deriving DecidableEq

namespace RepeatingTimer

/-- `RepeatingTimer::new(amount)`; `now` stands for `Instant::now()`. -/
def new (amount : Nat) (now : Nat) : RepeatingTimer :=
  { amount := amount, time_left := amount, last_checked := now, paused := false }

/-- `RepeatingTimer::update_state(elapsed)` from `src/timer.rs` lines 56–79.
Returns the mutated timer together with the returned `TimerState`. -/
def update_state (t : RepeatingTimer) (elapsed : Nat) :
    RepeatingTimer × TimerState :=
  if elapsed ≥ t.time_left then
    ({ t with
        time_left :=
          if elapsed > t.amount then t.amount
          else (Duration.checkedSub t.amount (elapsed - t.time_left)).getD t.amount },
      TimerState.Finished)
  else
    ({ t with time_left := t.time_left - elapsed }, TimerState.Ongoing)

/-- `RepeatingTimer::update()` from `src/timer.rs` lines 32–43, with the
current instant `now` passed explicitly.  `elapsed` uses the saturating
`Instant::duration_since`, i.e. `Nat` truncated subtraction;
`last_checked` is refreshed unconditionally before the pause check. -/
def update (t : RepeatingTimer) (now : Nat) : RepeatingTimer × TimerState :=
  let elapsed := now - t.last_checked
  let t1 := { t with last_checked := now }
  if t1.paused then (t1, TimerState.Paused) else t1.update_state elapsed

/-- `RepeatingTimer::toggle_pause()`. -/
def toggle_pause (t : RepeatingTimer) : RepeatingTimer :=
  { t with paused := !t.paused }

/-- `RepeatingTimer::rate()`. -/
def rate (t : RepeatingTimer) : Nat := t.amount

end RepeatingTimer

/-- One mutating operation on a `RepeatingTimer`, as used by the frontend:
an `update` at some instant, a raw `update_state` with some elapsed time,
or a `toggle_pause`. -/
inductive TimerOp
  | update (now : Nat)
  | updateState (elapsed : Nat)
  | togglePause

/-- Apply one `TimerOp`, discarding the returned `TimerState`. -/
def applyOp (t : RepeatingTimer) : TimerOp → RepeatingTimer
  | TimerOp.update now => (t.update now).1
  | TimerOp.updateState e => (t.update_state e).1
  | TimerOp.togglePause => t.toggle_pause

/-- Apply a sequence of `TimerOp`s from left to right. -/
def applyOps (t : RepeatingTimer) (ops : List TimerOp) : RepeatingTimer :=
  ops.foldl applyOp t

/-- Run `update_state` over a list of elapsed times, counting how many calls
returned `TimerState.Finished`. -/
def runTimer (t : RepeatingTimer) : List Nat → RepeatingTimer × Nat
  | [] => (t, 0)
  | e :: es =>
    let p := t.update_state e
    let r := runTimer p.1 es
    (r.1, (if p.2 = TimerState.Finished then 1 else 0) + r.2)

/-- Sanity: a fresh timer that sees half its period is Ongoing. -/
example : ((RepeatingTimer.new 10 0).update_state 5).2 = TimerState.Ongoing := by decide

/-- Sanity: a fresh timer that sees its full period is Finished and resets. -/
example : ((RepeatingTimer.new 10 0).update_state 10).1.time_left = 10 := by decide

/-- Per-axis cell side from `RaylibFrontend::new`
(`src/frontend.rs` lines 58–67 and `src/life_like.rs` lines 54–63):
the closure `|win, cells| (cells + 1.).mul_add(-cell_margin_f, win) / cells`. -/
def cellSide (win cells m : ℚ) : ℚ :=
  ((cells + 1) * (-m) + win) / cells

/-- Per-axis grid pixel size from `RaylibFrontend::new`
(`src/frontend.rs` lines 68–72): the closure
`|size, cells| cells.mul_add(size, (cells + 1.) * cell_margin_f)`. -/
def gridPixel (cells side m : ℚ) : ℚ :=
  cells * side + (cells + 1) * m

/-- The geometry a `RaylibFrontend` stores: the square cell side
(`rect_size`) and the per-axis centering offset (`center_translation`). -/
structure Geometry where
  rect_size : ℚ
  center_translation : ℚ × ℚ
deriving DecidableEq

/-- The geometry computation of `RaylibFrontend::new`
(`src/frontend.rs` lines 50–79; `src/life_like.rs` lines 50–75 is
identical): per-axis candidate sides, their minimum as the common square
side, the grid pixel size, and `center_translation = window_center -
grid_center`.  The function is total: the source performs no validation
and has no failure path. -/
def computeGeometry (window grid : Nat × Nat) (margin : Nat) : Geometry :=
  let side :=
    min (cellSide (window.1 : ℚ) (grid.1 : ℚ) (margin : ℚ))
        (cellSide (window.2 : ℚ) (grid.2 : ℚ) (margin : ℚ))
  { rect_size := side
    center_translation :=
      ((window.1 : ℚ) / 2 - gridPixel (grid.1 : ℚ) side (margin : ℚ) / 2,
       (window.2 : ℚ) / 2 - gridPixel (grid.2 : ℚ) side (margin : ℚ) / 2) }

/-- The two observations `window_should_close` can consult:
`automaton.is_finished()` and `rl.window_should_close()`. -/
structure FrontendObs where
  finished : Bool
  winClose : Bool

namespace Generic

/-- `RaylibFrontend::window_should_close` from `src/frontend.rs`
lines 93–95: it returns only the window handle's close flag. -/
def window_should_close (f : FrontendObs) : Bool :=
  f.winClose

end Generic

namespace LifeLike

/-- `RaylibFrontend::window_should_close` from `src/life_like.rs`
lines 91–93: `automaton.is_finished() || rl.window_should_close()`. -/
def window_should_close (f : FrontendObs) : Bool :=
  f.finished || f.winClose

end LifeLike

/-- The keys `default_key_actions` distinguishes. -/
inductive Key
  | space
  | minus
  | equal
  | other
deriving DecidableEq

/-- The timer effect of `RaylibFrontend::default_key_actions`
(`src/frontend.rs` lines 113–135; `src/life_like.rs` lines 111–134 is
identical), with the pressed key (`rl.get_key_pressed()`) and the current
instant passed explicitly.  `10` stands for `Duration::from_millis(10)`. -/
def default_key_actions (timer : RepeatingTimer) (pressed : Option Key)
    (now : Nat) : RepeatingTimer :=
  match pressed with
  | none => timer
  | some Key.space => timer.toggle_pause
  | some Key.minus => RepeatingTimer.new (timer.rate + 10) now
  | some Key.equal =>
      RepeatingTimer.new ((Duration.checkedSub timer.rate 10).getD 0) now
  | some Key.other => timer

/-- Sanity: exact-fit square grid, margin 0. -/
example : (computeGeometry (100, 100) (1, 1) 0).rect_size = 100 := by
  norm_num [computeGeometry, cellSide, gridPixel]

/-! ## Helper lemmas about `RepeatingTimer` -/

/-- `update_state` leaves `amount` unchanged. -/
theorem update_state_amount (t : RepeatingTimer) (e : Nat) :
    (t.update_state e).1.amount = t.amount := by
  unfold RepeatingTimer.update_state
  split <;> rfl

/-- `update_state` leaves `last_checked` unchanged. -/
theorem update_state_last_checked (t : RepeatingTimer) (e : Nat) :
    (t.update_state e).1.last_checked = t.last_checked := by
  unfold RepeatingTimer.update_state
  split <;> rfl

/-- The value `update_state` assigns to `time_left`, in closed form. -/
theorem update_state_time_left (t : RepeatingTimer) (e : Nat) :
    (t.update_state e).1.time_left =
      if e ≥ t.time_left then
        (if e > t.amount then t.amount
         else (Duration.checkedSub t.amount (e - t.time_left)).getD t.amount)
      else t.time_left - e := by
  unfold RepeatingTimer.update_state
  split <;> simp_all

/-- `update_state` preserves the invariant `time_left ≤ amount`. -/
theorem update_state_preserves_inv (t : RepeatingTimer) (e : Nat)
    (h : t.time_left ≤ t.amount) :
    (t.update_state e).1.time_left ≤ (t.update_state e).1.amount := by
  rw [update_state_time_left, update_state_amount]
  unfold Duration.checkedSub
  split_ifs with h1 h2 h3
  · exact Nat.le_refl _
  · simp only [Option.getD_some]
    exact Nat.sub_le t.amount (e - t.time_left)
  · simp
  · omega

/-- `update` preserves the invariant `time_left ≤ amount`. -/
theorem update_preserves_inv (t : RepeatingTimer) (now : Nat)
    (h : t.time_left ≤ t.amount) :
    (t.update now).1.time_left ≤ (t.update now).1.amount := by
  obtain ⟨a, tl, lc, pa⟩ := t
  cases pa
  · exact update_state_preserves_inv (RepeatingTimer.mk a tl now false) (now - lc) h
  · exact h

/-- An `update_state` with zero elapsed time on a timer with time still
left is a no-op returning `Ongoing`. -/
theorem update_state_zero (t : RepeatingTimer) (ht : 0 < t.time_left) :
    t.update_state 0 = (t, TimerState.Ongoing) := by
  have hn : ¬ ((0 : Nat) ≥ t.time_left) := by omega
  unfold RepeatingTimer.update_state
  rw [if_neg hn]
  rfl

/-! ## Claims C1, C2, C8, C9 -/

/-- Claim C1, counterexample.  The claim predicts that when
`elapsed ≥ time_left`, the branch guard is `overshoot > period` and
`time_left` becomes `period - overshoot` (saturating at zero) otherwise.
The code's guard is `elapsed > period` instead: at
`period = 10, time_left = 4, elapsed = 12` (a reachable state) the claim
predicts `time_left = 10 - 8 = 2` but the code resets `time_left = 10`. -/
theorem c1_counterexample :
    ¬ (∀ (t : RepeatingTimer) (e : Nat), e ≥ t.time_left →
        (t.update_state e).2 = TimerState.Finished ∧
        (t.update_state e).1.time_left =
          (if e - t.time_left > t.amount then t.amount
           else t.amount - (e - t.time_left))) := by
  intro h
  have h2 := (h (RepeatingTimer.mk 10 4 0 false) 12 (by decide)).2
  exact absurd h2 (by decide)

/-- Claim C1, amended: when `elapsed ≥ time_left`, `update_state` returns
`Finished`, and the new `time_left` is `period` when `elapsed > period`
(the code compares the raw elapsed time, not the overshoot, against the
period), and `period - overshoot` otherwise (the subtraction cannot
underflow in that branch, since there `overshoot ≤ elapsed ≤ period`;
the defensive fallback of `checked_sub` is `period`, not zero). -/
theorem c1_update_state_boundary (t : RepeatingTimer) (e : Nat)
    (h : e ≥ t.time_left) :
    (t.update_state e).2 = TimerState.Finished ∧
    (t.update_state e).1.time_left =
      (if e > t.amount then t.amount else t.amount - (e - t.time_left)) := by
  unfold RepeatingTimer.update_state
  rw [if_pos h]
  refine ⟨rfl, ?_⟩
  by_cases he : e > t.amount
  · simp [he]
  · have hle : e - t.time_left ≤ t.amount :=
      le_trans (Nat.sub_le e t.time_left) (Nat.not_lt.mp he)
    simp [he, Duration.checkedSub, hle]

/-- Witness for `c1_update_state_boundary` at
`period = 10, time_left = 4, elapsed = 12`. -/
theorem c1_update_state_boundary_witness :
    ((RepeatingTimer.mk 10 4 0 false).update_state 12).2 = TimerState.Finished ∧
    ((RepeatingTimer.mk 10 4 0 false).update_state 12).1.time_left =
      (if 12 > (RepeatingTimer.mk 10 4 0 false).amount
       then (RepeatingTimer.mk 10 4 0 false).amount
       else (RepeatingTimer.mk 10 4 0 false).amount
              - (12 - (RepeatingTimer.mk 10 4 0 false).time_left)) :=
  c1_update_state_boundary (RepeatingTimer.mk 10 4 0 false) 12 (by decide)

/-- Claim C2: starting from `new(period)` and applying any sequence of
`update` / `update_state` / `toggle_pause` calls, `0 ≤ time_left ≤ period`
holds at every observation point (in particular after the first
`update_state`; durations are non-negative by construction, so only the
upper bound is substantive). -/
theorem c2_time_left_bounded (p now : Nat) (ops : List TimerOp) :
    (applyOps (RepeatingTimer.new p now) ops).time_left ≤
      (applyOps (RepeatingTimer.new p now) ops).amount := by
  have main : ∀ (ops : List TimerOp) (t : RepeatingTimer),
      t.time_left ≤ t.amount →
      (applyOps t ops).time_left ≤ (applyOps t ops).amount := by
    intro ops
    induction ops with
    | nil => intro t h; exact h
    | cons op rest ih =>
      intro t h
      refine ih (applyOp t op) ?_
      cases op with
      | update now' => exact update_preserves_inv t now' h
      | updateState e => exact update_state_preserves_inv t e h
      | togglePause => exact h
  exact main ops (RepeatingTimer.new p now) (le_refl p)

/-- Claim C8, counterexample.  The claim says a backward clock read
(negative raw elapsed, i.e. `now < last_checked`) makes `update` return
`Ongoing`.  For a zero-period timer (reachable: the rate-increase key
floors the period at zero) the elapsed time saturates to zero but
`0 ≥ time_left = 0` holds, so `update` returns `Finished`, not
`Ongoing`. -/
theorem c8_counterexample :
    (3 : Nat) < (RepeatingTimer.new 0 5).last_checked ∧
    ((RepeatingTimer.new 0 5).update 3).2 ≠ TimerState.Ongoing := by
  decide

/-- Claim C8, amended: a clock read that went backward never panics
(`Instant::duration_since` saturates, modelled by truncated subtraction,
so `update` is total) and is treated as zero elapsed; for an unpaused
timer with `time_left > 0` the update proceeds and returns `Ongoing`
with `time_left` unchanged (a paused timer returns `Paused`, and a timer
with `time_left = 0` — period zero — returns `Finished`). -/
theorem c8_backward_clock (t : RepeatingTimer) (now : Nat)
    (hb : now < t.last_checked) (hp : t.paused = false)
    (ht : 0 < t.time_left) :
    (t.update now).2 = TimerState.Ongoing ∧
    (t.update now).1.time_left = t.time_left := by
  obtain ⟨a, tl, lc, pa⟩ := t
  cases pa
  · have he : now - lc = 0 := Nat.sub_eq_zero_of_le (Nat.le_of_lt hb)
    have hrun : (RepeatingTimer.mk a tl lc false).update now
        = (RepeatingTimer.mk a tl now false).update_state (now - lc) := rfl
    rw [hrun, he, update_state_zero (RepeatingTimer.mk a tl now false) ht]
    exact ⟨rfl, rfl⟩
  · exact Bool.noConfusion hp

/-- Witness for `c8_backward_clock`: timer with period 10, 10 ticks left,
`last_checked = 5`, clock read at 3. -/
theorem c8_backward_clock_witness :
    ((RepeatingTimer.mk 10 10 5 false).update 3).2 = TimerState.Ongoing ∧
    ((RepeatingTimer.mk 10 10 5 false).update 3).1.time_left =
      (RepeatingTimer.mk 10 10 5 false).time_left :=
  c8_backward_clock (RepeatingTimer.mk 10 10 5 false) 3 (by decide) (by decide)
    (by decide)

/-- Claim C9: `update` refreshes `last_checked` to the current instant on
every call regardless of pause state, and on a paused timer it returns
`Paused` leaving both `time_left` and the period unchanged. -/
theorem c9_paused_update (t : RepeatingTimer) (now : Nat) :
    (t.update now).1.last_checked = now ∧
    (t.paused = true →
      (t.update now).2 = TimerState.Paused ∧
      (t.update now).1.time_left = t.time_left ∧
      (t.update now).1.amount = t.amount) := by
  obtain ⟨a, tl, lc, pa⟩ := t
  cases pa
  · refine ⟨?_, ?_⟩
    · exact update_state_last_checked (RepeatingTimer.mk a tl now false) (now - lc)
    · intro hcontra
      exact Bool.noConfusion hcontra
  · exact ⟨rfl, fun _ => ⟨rfl, rfl, rfl⟩⟩

/-- Witness for `c9_paused_update` on a concrete paused timer. -/
theorem c9_paused_update_witness :
    (((RepeatingTimer.mk 10 4 2 true).update 7).1.last_checked = 7) ∧
    ((RepeatingTimer.mk 10 4 2 true).paused = true →
      ((RepeatingTimer.mk 10 4 2 true).update 7).2 = TimerState.Paused ∧
      ((RepeatingTimer.mk 10 4 2 true).update 7).1.time_left =
        (RepeatingTimer.mk 10 4 2 true).time_left ∧
      ((RepeatingTimer.mk 10 4 2 true).update 7).1.amount =
        (RepeatingTimer.mk 10 4 2 true).amount) :=
  c9_paused_update (RepeatingTimer.mk 10 4 2 true) 7

/-! ## Claim C7: one Finished per exactly-summed cycle -/

/-- Running `update_state` over elapsed times summing to zero leaves a
timer with time still left untouched and reports no `Finished`. -/
theorem runTimer_zeros :
    ∀ (es : List Nat) (t : RepeatingTimer), es.sum = 0 → 0 < t.time_left →
      runTimer t es = (t, 0) := by
  intro es
  induction es with
  | nil => intro t _ _; rfl
  | cons e rest ih =>
    intro t hs ht
    simp only [List.sum_cons] at hs
    have he : e = 0 := by omega
    have hr : rest.sum = 0 := by omega
    subst he
    simp only [runTimer, update_state_zero t ht]
    rw [ih t hr ht]
    rfl

/-- A `Finished` step at the exact boundary: when `elapsed = time_left`
and the invariant holds, `update_state` resets `time_left` to the full
period. -/
theorem update_state_exact (t : RepeatingTimer) (h : t.time_left ≤ t.amount) :
    t.update_state t.time_left =
      ({ t with time_left := t.amount }, TimerState.Finished) := by
  unfold RepeatingTimer.update_state
  rw [if_pos (Nat.le_refl t.time_left)]
  have hne : ¬ (t.time_left > t.amount) := by omega
  rw [if_neg hne, Nat.sub_self]
  simp [Duration.checkedSub]

/-- Core induction for C7: from any timer state satisfying the invariant
with time still left, a sequence of elapsed times summing exactly to
`time_left` yields exactly one `Finished` and leaves `time_left` equal to
the full period. -/
theorem runTimer_exact :
    ∀ (es : List Nat) (t : RepeatingTimer), t.time_left ≤ t.amount →
      0 < t.time_left → es.sum = t.time_left →
      (runTimer t es).1.time_left = t.amount ∧ (runTimer t es).2 = 1 := by
  intro es
  induction es with
  | nil =>
    intro t h1 h2 h3
    simp only [List.sum_nil] at h3
    omega
  | cons e rest ih =>
    intro t h1 h2 h3
    simp only [List.sum_cons] at h3
    by_cases hc : e < t.time_left
    · -- partial step: Ongoing, recurse
      have hguard : ¬ (e ≥ t.time_left) := by omega
      have hstep : t.update_state e =
          ({ t with time_left := t.time_left - e }, TimerState.Ongoing) := by
        unfold RepeatingTimer.update_state
        rw [if_neg hguard]
      have hrec := ih { t with time_left := t.time_left - e }
        (by simp; omega) (by simp; omega) (by simp; omega)
      simp only [runTimer, hstep]
      simpa using hrec
    · -- boundary step: e = time_left, Finished, then only zeros remain
      have he : e = t.time_left := by omega
      have hr : rest.sum = 0 := by omega
      subst he
      have hstep := update_state_exact t h1
      simp only [runTimer, hstep]
      rw [runTimer_zeros rest { t with time_left := t.amount } hr (by simp; omega)]
      simp

/-- Claim C7, counterexample.  For a zero-period timer, every elapsed
input sums to the period, and every call at the boundary returns
`Finished`: the list `[0, 0]` sums to the period `0`, yet two calls
return `Finished`, not exactly one. -/
theorem c7_counterexample :
    List.sum [0, 0] = (RepeatingTimer.new 0 0).amount ∧
    (runTimer (RepeatingTimer.new 0 0) [0, 0]).2 = 2 := by decide

/-- Claim C7, amended with `period > 0`: for every sequence of
`update_state` calls on a fresh timer whose elapsed inputs sum exactly to
the (positive) period, exactly one call returns `Finished` and afterwards
`time_left` equals the period again — no drift across the cycle. -/
theorem c7_exact_cycle (p now : Nat) (es : List Nat)
    (hp : 0 < p) (hs : es.sum = p) :
    (runTimer (RepeatingTimer.new p now) es).2 = 1 ∧
    (runTimer (RepeatingTimer.new p now) es).1.time_left = p := by
  have h := runTimer_exact es (RepeatingTimer.new p now) (Nat.le_refl p) hp hs
  exact ⟨h.2, h.1⟩

/-- Witness for `c7_exact_cycle`: period 2, elapsed inputs `[1, 1]`. -/
theorem c7_exact_cycle_witness :
    (runTimer (RepeatingTimer.new 2 0) [1, 1]).2 = 1 ∧
    (runTimer (RepeatingTimer.new 2 0) [1, 1]).1.time_left = 2 :=
  c7_exact_cycle 2 0 [1, 1] (by decide) (by decide)

/-! ## Claim C10: rate-adjustment keys rebuild the timer -/

/-- Claim C10: pressing minus or equals replaces the whole timer with a
freshly constructed one: the period becomes `period + 10ms` (minus) or
`period - 10ms` floored at zero (equals), `time_left` is reset to the new
period, and `paused` is reset to `false` — so adjusting the rate while
paused resumes the timer. -/
theorem c10_rate_keys (t : RepeatingTimer) (now : Nat) (k : Key)
    (hk : k = Key.minus ∨ k = Key.equal) :
    (default_key_actions t (some k) now).amount =
      (if k = Key.minus then t.amount + 10 else t.amount - 10) ∧
    (default_key_actions t (some k) now).time_left =
      (default_key_actions t (some k) now).amount ∧
    (default_key_actions t (some k) now).paused = false := by
  rcases hk with h | h <;> subst h
  · simp [default_key_actions, RepeatingTimer.new, RepeatingTimer.rate]
  · simp [default_key_actions, RepeatingTimer.new, RepeatingTimer.rate,
      Duration.checkedSub]
    split
    · simp
    · simp
      omega

/-- Witness for `c10_rate_keys`: a paused timer with period 25 and the
minus key. -/
theorem c10_rate_keys_witness :
    (default_key_actions (RepeatingTimer.mk 25 7 3 true) (some Key.minus) 0).amount =
      (if Key.minus = Key.minus
       then (RepeatingTimer.mk 25 7 3 true).amount + 10
       else (RepeatingTimer.mk 25 7 3 true).amount - 10) ∧
    (default_key_actions (RepeatingTimer.mk 25 7 3 true) (some Key.minus) 0).time_left =
      (default_key_actions (RepeatingTimer.mk 25 7 3 true) (some Key.minus) 0).amount ∧
    (default_key_actions (RepeatingTimer.mk 25 7 3 true) (some Key.minus) 0).paused = false :=
  c10_rate_keys (RepeatingTimer.mk 25 7 3 true) 0 Key.minus (Or.inl rfl)

/-! ## Claim C4: close predicate vs automaton finished -/

/-- Claim C4, counterexample.  The claim says both frontend variants'
`window_should_close` return true whenever the automaton is finished.
The dense (generic) variant consults only the window handle: with
`finished = true` and the window not closing, it returns `false`. -/
theorem c4_counterexample :
    ¬ (∀ f : FrontendObs, f.finished = true →
        Generic.window_should_close f = true ∧
        LifeLike.window_should_close f = true) := by
  intro h
  have hg := (h (FrontendObs.mk true false) rfl).1
  exact Bool.noConfusion hg

/-- Claim C4, amended: only the sparse (life_like) variant's close
predicate becomes true whenever the automaton reports finished; the dense
(generic) variant's predicate equals the window handle's close flag alone
and ignores the automaton. -/
theorem c4_close_predicates (f : FrontendObs) (hf : f.finished = true) :
    LifeLike.window_should_close f = true ∧
    Generic.window_should_close f = f.winClose := by
  unfold LifeLike.window_should_close Generic.window_should_close
  rw [hf]
  exact ⟨rfl, rfl⟩

/-- Witness for `c4_close_predicates`: finished automaton, window handle
not requesting close. -/
theorem c4_close_predicates_witness :
    LifeLike.window_should_close (FrontendObs.mk true false) = true ∧
    Generic.window_should_close (FrontendObs.mk true false) =
      (FrontendObs.mk true false).winClose :=
  c4_close_predicates (FrontendObs.mk true false) rfl

/-! ## Claims C3, C5, C6: construction geometry -/

/-- Claim C3 evaluation at the failing input.  `RaylibFrontend::new`
performs no validation: with window `(100, 100)`, grid `(2, 2)` and
margin `100` (margin-only size `300` exceeds the window on both axes),
construction silently proceeds and stores a negative cell side of `-100`
(all arithmetic at this input is exact in `f32`).  The spec requires a
construction-time rejection; no failure path exists in the code — for a
zero-cell axis the `f32` division by zero likewise yields a non-finite
value rather than an error. -/
theorem c3_construction_proceeds :
    (computeGeometry (100, 100) (2, 2) 100).rect_size = -100 ∧
    (computeGeometry (100, 100) (2, 2) 100).center_translation = (0, 0) := by
  norm_num [computeGeometry, cellSide, gridPixel]

/-- Claim C5, counterexample.  For grid `(2, 1)`, margin `0`, window
`(100, 50)`, the claim predicts `cell_side = 25` and a positive symmetric
translation on the wider axis.  The code pairs each window axis with the
same grid axis: candidate sides are `100/2 = 50` and `50/1 = 50`, so
`cell_side = 50` and the translation is zero on both axes. -/
theorem c5_counterexample :
    ¬ ((computeGeometry (100, 50) (2, 1) 0).rect_size = 25 ∧
       0 < (computeGeometry (100, 50) (2, 1) 0).center_translation.1) := by
  norm_num [computeGeometry, cellSide, gridPixel]

/-- Claim C5, amended: for grid `(2, 1)`, margin `0`, window `(100, 50)`,
both axes yield the same candidate side, so `cell_side = 50` and the grid
exactly fills the window: `center_translation = (0, 0)`. -/
theorem c5_mapper_nonsquare :
    (computeGeometry (100, 50) (2, 1) 0).rect_size = 50 ∧
    (computeGeometry (100, 50) (2, 1) 0).center_translation = (0, 0) := by
  norm_num [computeGeometry, cellSide, gridPixel]

/-- Per-axis centering bound: if the chosen side is at most this axis's
candidate side and the axis has a positive cell count, the centered grid
fits (the translation is non-negative on this axis). -/
theorem translationAxis_nonneg (win m cells side : ℚ)
    (hc : 0 < cells) (hs : side ≤ cellSide win cells m) :
    0 ≤ win / 2 - gridPixel cells side m / 2 := by
  rw [cellSide] at hs
  rw [gridPixel]
  have h1 : side * cells ≤ (cells + 1) * (-m) + win := (le_div_iff₀ hc).mp hs
  nlinarith [h1]

/-- Claim C6: for every grid with `cols, rows ≥ 1` and every margin,
provided the window exceeds the margin-only size `(cells + 1) * margin`
on both axes, the computed grid fits inside the window:
`center_translation` is non-negative on both axes.  (The margin-only
bound is the claim's hypothesis; the proof shows fitting holds whenever
the axis cell counts are positive.) -/
theorem c6_grid_fits (W H cols rows margin : Nat)
    (hc : 1 ≤ cols) (hr : 1 ≤ rows)
    (_hW : (cols + 1) * margin < W) (_hH : (rows + 1) * margin < H) :
    0 ≤ (computeGeometry (W, H) (cols, rows) margin).center_translation.1 ∧
    0 ≤ (computeGeometry (W, H) (cols, rows) margin).center_translation.2 := by
  have hc0 : 0 < cols := by omega
  have hr0 : 0 < rows := by omega
  have hcq : (0 : ℚ) < (cols : ℚ) := by exact_mod_cast hc0
  have hrq : (0 : ℚ) < (rows : ℚ) := by exact_mod_cast hr0
  constructor
  · exact translationAxis_nonneg _ _ _ _ hcq (min_le_left _ _)
  · exact translationAxis_nonneg _ _ _ _ hrq (min_le_right _ _)

/-- Witness for `c6_grid_fits`: window `(100, 100)`, grid `(2, 2)`,
margin `1`. -/
theorem c6_grid_fits_witness :
    0 ≤ (computeGeometry (100, 100) (2, 2) 1).center_translation.1 ∧
    0 ≤ (computeGeometry (100, 100) (2, 2) 1).center_translation.2 :=
  c6_grid_fits 100 100 2 2 1 (by decide) (by decide) (by decide) (by decide)
